import Mathlib

/-!
Verification of the ETL pipeline in src/etl_project.py.

The pipeline is embedded shallowly:
* Python values appearing in records are modelled by `PyValue` (strings,
  numbers as rationals, null, and a catch-all for other types).
* A pandas DataFrame is modelled by its column list and its rows; a row is an
  association list from column names to values, and a cell that is absent is
  read as null (pandas fills missing keys with NaN when building a DataFrame
  from a list of dicts).
* Logging is modelled by a list of `LogEvent`s returned alongside each result.
* The SQLite store is modelled by `Store`, an optional persisted table; the
  connections opened by the load and verify stages are traced as `ConnEvent`s.
* Storage failures (`sqlite3.Error` raised by `to_sql` / the read) are
  modelled by a boolean oracle passed to the stage.
-/

namespace Etl

/-- A Python value as it can occur in a raw API record. -/
inductive PyValue where
  | str (s : String)
  | num (q : ℚ)
  | none
  | other
deriving DecidableEq

/-- A raw record: one dict of the decoded JSON array (field name to value). -/
abbrev Row := List (String × PyValue)

/-- Model of a pandas DataFrame: the column index plus the rows. -/
structure DataFrame where
  cols : List String
  rows : List Row
deriving DecidableEq

/-- `pd.DataFrame()` with no arguments: no columns, no rows. -/
def emptyDataFrame : DataFrame := { cols := [], rows := [] }

/-- `df.empty` in pandas: true iff one of the axes has length 0. -/
def DataFrame.empty (df : DataFrame) : Bool :=
  df.rows.isEmpty || df.cols.isEmpty

/-- Reading a cell: a key absent from the row is NaN (null) in pandas. -/
def getCell (r : Row) (c : String) : PyValue :=
  match r.lookup c with
  | Option.some v => v
  | Option.none => PyValue.none

/-- `df[c]`: the column `c` as the list of its cells, row by row. -/
def getCol (df : DataFrame) (c : String) : List PyValue :=
  df.rows.map (fun r => getCell r c)

/-- `pd.isnull`: both Python `None` and a missing key (NaN) are null. -/
def isNull : PyValue → Bool
  | PyValue.none => true
  | _ => false

/-- `isinstance(x, str)`. -/
def isStr : PyValue → Bool
  | PyValue.str _ => true
  | _ => false

/-- `isinstance(x, (float, int))`. -/
def isNum : PyValue → Bool
  | PyValue.num _ => true
  | _ => false

/-- The comparison `x > 0` used by the range filter (false on non-numbers). -/
def gtZero : PyValue → Bool
  | PyValue.num q => decide (0 < q)
  | _ => false

/-- An entry written to the logging collaborator. -/
inductive LogEvent where
  | info (msg : String)
  | warning (msg : String)
  | error (msg : String)
deriving DecidableEq

/-- Insert a key into the column index if it is not there yet. -/
def insertKey (acc : List String) (k : String) : List String :=
  if acc.contains k then acc else acc ++ [k]

/-- Column index of `pd.DataFrame(data)`: union of the rows\x27 keys, in order
of first appearance. -/
def unionKeys (data : List Row) : List String :=
  data.foldl (fun acc r => r.foldl (fun a p => insertKey a p.1) acc) []

/-- `pd.DataFrame(data)` for a list of dicts `data`. -/
def pdDataFrame (data : List Row) : DataFrame :=
  { cols := unionKeys data, rows := data }

/-- `required_columns` of `transform_data` (src line 60). -/
def required_columns : List String :=
  ["id", "symbol", "name", "current_price", "market_cap", "total_volume"]

/-- The canonical column names assigned at src line 69. -/
def canonical_columns : List String :=
  ["ID", "Symbol", "Name", "Current_Price", "Market_Cap", "Total_Volume"]

/-- The test `col not in df.columns or df[col].isnull().any()` (src line 61). -/
def offendingCol (df : DataFrame) (c : String) : Bool :=
  !df.cols.contains c || (getCol df c).any isNull

/-- `missing_columns` computed at src line 61. -/
def missingCols (df : DataFrame) : List String :=
  required_columns.filter (fun c => offendingCol df c)

/-- The message of src lines 65-66. -/
def missingMsg (cols : List String) : String :=
  "Missing or null values found in columns: " ++ String.intercalate ", " cols

/-- `expected_dtypes` of `validate_data_types` (src lines 20-27): for each
column, the `isinstance` check and the printed form of the expected type. -/
def expected_dtypes : List (String × (PyValue → Bool) × String) :=
  [("ID", isStr, "<class \x27str\x27>"),
   ("Symbol", isStr, "<class \x27str\x27>"),
   ("Name", isStr, "<class \x27str\x27>"),
   ("Current_Price", isNum, "(<class \x27float\x27>, <class \x27int\x27>)"),
   ("Market_Cap", isNum, "(<class \x27float\x27>, <class \x27int\x27>)"),
   ("Total_Volume", isNum, "(<class \x27float\x27>, <class \x27int\x27>)")]

/-- The loop of `validate_data_types` (src lines 30-35): the first column
whose cells do not all satisfy the check logs an error and yields false. -/
def validateTypesAux (df : DataFrame) :
    List (String × (PyValue → Bool) × String) → Bool × List LogEvent
  | [] => (true, [])
  | (column, check, tyStr) :: rest =>
    if (getCol df column).all check then
      validateTypesAux df rest
    else
      (false, [LogEvent.error ("Invalid data type in column \x27" ++ column ++
        "\x27. Expected " ++ tyStr ++ ".")])

/-- `validate_data_types` (src lines 13-35). -/
def validate_data_types (df : DataFrame) : Bool × List LogEvent :=
  validateTypesAux df expected_dtypes

/-- `validate_value_ranges` (src lines 37-46), exactly as written: it selects
the rows where `Current_Price > 0` AND `Market_Cap > 0`, and returns false
when that selection is non-empty. -/
def validate_value_ranges (df : DataFrame) : Bool × List LogEvent :=
  if !(df.rows.filter (fun r =>
        gtZero (getCell r "Current_Price") && gtZero (getCell r "Market_Cap"))).isEmpty then
    (false, [LogEvent.error ("Invalid values detected in \x27Current_Price\x27 or " ++
      "\x27Market_Cap\x27. Values must be positive.")])
  else
    (true, [])

/-- `df[required_columns]` followed by the rename to `canonical_columns`
(src lines 68-69): each row is projected onto the six required fields, in
that order, under the new names. -/
def projectRename (df : DataFrame) : DataFrame :=
  { cols := canonical_columns,
    rows := df.rows.map (fun r =>
      List.zip canonical_columns (required_columns.map (fun c => getCell r c))) }

/-- `transform_data` (src lines 48-84): returns the transformed DataFrame and
the log it produced; every `ValueError` is caught and turned into
`pd.DataFrame()` plus a logged message. -/
def transform_data (data : List Row) : DataFrame × List LogEvent :=
  if data.isEmpty then
    (emptyDataFrame, [LogEvent.error "Data error: No data to transform!"])
  else
    let df := pdDataFrame data
    let missing := missingCols df
    if !missing.isEmpty then
      (emptyDataFrame,
       [LogEvent.error (missingMsg missing),
        LogEvent.error ("Data error: " ++ missingMsg missing)])
    else
      let df2 := projectRename df
      let tcheck := validate_data_types df2
      if !tcheck.1 then
        (emptyDataFrame, tcheck.2 ++ [LogEvent.error "Data error: Data type validation failed."])
      else
        let rcheck := validate_value_ranges df2
        if !rcheck.1 then
          (emptyDataFrame, rcheck.2 ++ [LogEvent.error "Data error: Value range validation failed."])
        else
          (df2, [LogEvent.info "Data transformation successful."])

/-- The relational store: the optional persisted `cryptos` table in
`crypto_data.db`. -/
structure Store where
  cryptos : Option DataFrame
deriving DecidableEq

/-- A connection event: `sqlite3.connect` or `conn.close()`. -/
inductive ConnEvent where
  | openConn
  | closeConn
deriving DecidableEq

/-- Result of `load_data`: the store afterwards, the log, and the trace of
connection events. -/
structure LoadResult where
  store : Store
  log : List LogEvent
  conns : List ConnEvent
deriving DecidableEq

/-- `load_data` (src lines 107-123). `toSqlFails` is the oracle for
`df.to_sql` raising `sqlite3.Error`; on that path the except clause at
line 120 logs, and `conn.close()` at line 117 is skipped. An empty
DataFrame raises `ValueError` before any connection is opened. -/
def load_data (toSqlFails : Bool) (s : Store) (df : DataFrame) : LoadResult :=
  if df.empty then
    { store := s,
      log := [LogEvent.error
        "Error found in the data to be loaded: No data to load in the database."],
      conns := [] }
  else if toSqlFails then
    { store := s,
      log := [LogEvent.error "Error during the upload of data in the DB: (storage failure)"],
      conns := [ConnEvent.openConn] }
  else
    { store := { cryptos := Option.some df },
      log := [LogEvent.info "Data loaded into database successfully."],
      conns := [ConnEvent.openConn, ConnEvent.closeConn] }

/-- Result of `verify_data`: the sample surfaced (printed), the log, and the
connection events. -/
structure VerifyResult where
  sample : Option DataFrame
  log : List LogEvent
  conns : List ConnEvent
deriving DecidableEq

/-- `verify_data` (src lines 125-138). `readFails` is the oracle for the read
at line 132 raising; a missing `cryptos` table also makes the read fail. On
either failing path `conn.close()` at line 133 is skipped. On success the
sample is `SELECT * FROM cryptos LIMIT 5`: the first 5 rows. -/
def verify_data (readFails : Bool) (s : Store) : VerifyResult :=
  match s.cryptos with
  | Option.none =>
    { sample := Option.none,
      log := [LogEvent.error "Error reading the data: (no such table)"],
      conns := [ConnEvent.openConn] }
  | Option.some tbl =>
    if readFails then
      { sample := Option.none,
        log := [LogEvent.error "Error reading the data: (storage failure)"],
        conns := [ConnEvent.openConn] }
    else
      { sample := Option.some { cols := tbl.cols, rows := tbl.rows.take 5 },
        log := [LogEvent.info "Data verification successful."],
        conns := [ConnEvent.openConn, ConnEvent.closeConn] }

/-- Which pipeline stages ran in a run of the orchestrator body. -/
structure StageTrace where
  ranTransform : Bool
  ranLoad : Bool
  ranVerify : Bool
deriving DecidableEq

/-- Result of the orchestrator body: store afterwards, log, stage trace. -/
structure EtlResult where
  store : Store
  log : List LogEvent
  trace : StageTrace
deriving DecidableEq

/-- The body of `etl_process` after the extraction call (src lines 145-154),
parameterized by the extracted data. `if data:` is Python list truthiness
(non-empty); `if not df.empty:` gates load and verify; line 149 logs the
completion message between load and verify. -/
def etl_processFrom (toSqlFails readFails : Bool) (s : Store) (data : List Row) : EtlResult :=
  if !data.isEmpty then
    let t := transform_data data
    if !t.1.empty then
      let l := load_data toSqlFails s t.1
      let v := verify_data readFails l.store
      { store := l.store,
        log := t.2 ++ l.log ++
          [LogEvent.info "ETL process completed. Data is loaded into \x27crypto_data.db\x27."] ++
          v.log,
        trace := { ranTransform := true, ranLoad := true, ranVerify := true } }
    else
      { store := s,
        log := t.2 ++ [LogEvent.warning "No data to upload."],
        trace := { ranTransform := true, ranLoad := false, ranVerify := false } }
  else
    { store := s,
      log := [LogEvent.error "It was not possible to extract data."],
      trace := { ranTransform := false, ranLoad := false, ranVerify := false } }

/-- The names bound at module level by the import statements at src
lines 1-3: `import logging`, `import pandas as pd`, `import sqlite3`. -/
def module_imported_names : List String := ["logging", "pd", "sqlite3"]

/-- A network-level event of the extraction stage. -/
inductive NetEvent where
  | httpRequest
deriving DecidableEq

/-- An unhandled Python exception escaping a stage. -/
inductive PyError where
  | nameError (missingName : String)
deriving DecidableEq

/-- `extract_data` (src lines 86-105). `transportResult` is the oracle for
the outcome the HTTP transport would deliver (`Except.error ()` standing for
a timeout, connection error, or non-2xx status). Evaluating the name
`requests` at line 94 precedes issuing the request; the module imports bind
only `logging`, `pd` and `sqlite3`, so the lookup raises `NameError`, and
the except clause at line 103 (which evaluates `requests` again) cannot
catch it. The transport branches are therefore unreachable; were the name
bound, a transport failure would be caught and yield `[]`. -/
def extract_data (transportResult : Except Unit (List Row)) :
    Except PyError (List Row) × List NetEvent :=
  if module_imported_names.contains "requests" then
    (match transportResult with
     | Except.ok data => Except.ok data
     | Except.error _ => Except.ok [], [NetEvent.httpRequest])
  else
    (Except.error (PyError.nameError "requests"), [])

/-- `etl_process` (src lines 140-154): extraction first; an exception raised
by `extract_data` propagates (nothing in `etl_process` catches it), so no
later stage runs. -/
def etl_process (transportResult : Except Unit (List Row))
    (toSqlFails readFails : Bool) (s : Store) : Except PyError EtlResult :=
  match (extract_data transportResult).1 with
  | Except.error e => Except.error e
  | Except.ok data => Except.ok (etl_processFrom toSqlFails readFails s data)

/-- The §8 scenario row `id=bitcoin, symbol=btc, name=Bitcoin,
current_price=50000, market_cap=1000000000, total_volume=500000`. -/
def goodRow : Row :=
  [("id", PyValue.str "bitcoin"), ("symbol", PyValue.str "btc"),
   ("name", PyValue.str "Bitcoin"), ("current_price", PyValue.num 50000),
   ("market_cap", PyValue.num 1000000000), ("total_volume", PyValue.num 500000)]

/-- The same row with `market_cap = -5`. -/
def badRow : Row :=
  [("id", PyValue.str "bitcoin"), ("symbol", PyValue.str "btc"),
   ("name", PyValue.str "Bitcoin"), ("current_price", PyValue.num 50000),
   ("market_cap", PyValue.num (-5)), ("total_volume", PyValue.num 500000)]

/-- The canonical table the good row projects to. -/
def goodTable : DataFrame := projectRename (pdDataFrame [goodRow])

/-- The canonical table the bad row projects to. -/
def badTable : DataFrame := projectRename (pdDataFrame [badRow])

/-- C1: the claim says a batch in which some row has `Current_Price <= 0` or
`Market_Cap <= 0` makes `transform` return EMPTY. The code inverts the range
filter: a batch whose only row has `Market_Cap = -5` (all presence, null and
type checks passing) is accepted, and `transform_data` returns the one-row
table instead of the empty DataFrame. -/
theorem C1_nonpositive_cap_batch_accepted :
    getCell badRow "market_cap" = PyValue.num (-5) ∧
    (validate_data_types (projectRename (pdDataFrame [badRow]))).1 = true ∧
    (transform_data [badRow]).1 = badTable ∧
    (transform_data [badRow]).1.rows.length = 1 ∧
    (transform_data [badRow]).1 ≠ emptyDataFrame := by
  decide

/-- C2: the claim says a batch in which every row is fully well-formed (six
fields, correct types, strictly positive price and cap) is transformed into
the renamed six-column table. The inverted range filter of
`validate_value_ranges` returns false exactly when some row has both
`Current_Price > 0` and `Market_Cap > 0`, so the fully valid one-row batch
from §8 is rejected and `transform_data` returns the empty DataFrame. -/
theorem C2_valid_batch_rejected :
    (missingCols (pdDataFrame [goodRow])).isEmpty = true ∧
    (validate_data_types (projectRename (pdDataFrame [goodRow]))).1 = true ∧
    gtZero (getCell goodRow "current_price") = true ∧
    gtZero (getCell goodRow "market_cap") = true ∧
    (validate_value_ranges (projectRename (pdDataFrame [goodRow]))).1 = false ∧
    (transform_data [goodRow]).1 = emptyDataFrame := by
  decide

/-- C3: the claim says a run whose extracted input holds a row with
`market_cap = -5` never invokes load and leaves the persisted table
unchanged. Feeding that batch to the orchestrator body (the real
`extract_data` never returns, see C4, so the extraction result is supplied
as a parameter): the inverted range check accepts the batch, load runs, and
the previously persisted table is replaced by the bad row\x27s table. -/
theorem C3_bad_cap_batch_is_loaded :
    (etl_processFrom false false { cryptos := Option.some goodTable } [badRow]).trace.ranLoad
      = true ∧
    (etl_processFrom false false { cryptos := Option.some goodTable } [badRow]).store.cryptos
      = Option.some badTable ∧
    badTable ≠ goodTable := by
  decide

/-- C4: the name `requests` is referenced at src line 94 (and again in the
except clause at line 103) but never imported (src lines 1-3 bind only
`logging`, `pd`, `sqlite3`), so every invocation of `extract_data` raises an
unhandled NameError before any HTTP request is issued, and `etl_process`
never reaches the transform stage: it propagates the error instead of
producing a run result. -/
theorem C4_extract_always_raises_name_error (transportResult : Except Unit (List Row))
    (toSqlFails readFails : Bool) (s : Store) :
    (extract_data transportResult).1 = Except.error (PyError.nameError "requests") ∧
    (extract_data transportResult).2 = [] ∧
    etl_process transportResult toSqlFails readFails s
      = Except.error (PyError.nameError "requests") := by
  refine ⟨rfl, rfl, ?_⟩
  simp [etl_process, extract_data, module_imported_names]

/-- C4 witness: the theorem at a concrete transport outcome and store. -/
theorem C4_extract_always_raises_name_error_witness :
    (extract_data (Except.ok [goodRow])).1 = Except.error (PyError.nameError "requests") ∧
    (extract_data (Except.ok [goodRow])).2 = [] ∧
    etl_process (Except.ok [goodRow]) false false { cryptos := Option.none }
      = Except.error (PyError.nameError "requests") :=
  C4_extract_always_raises_name_error (Except.ok [goodRow]) false false
    { cryptos := Option.none }

/-- C5: the claim says that on every transport-level failure `extract`
returns an empty result and never raises. In the code the unbound name
`requests` makes `extract_data` raise NameError on every call, the
transport-failure handler included, so it never returns `[]` to its
caller. -/
theorem C5_extract_raises_instead_of_returning_empty :
    (extract_data (Except.error ())).1 = Except.error (PyError.nameError "requests") ∧
    (extract_data (Except.error ())).1 ≠ Except.ok [] := by
  refine ⟨rfl, ?_⟩
  simp [extract_data, module_imported_names]

/-- C6: for every non-empty batch in which some required source field is
absent from the batch or null in some row, `transform_data` returns the
empty DataFrame, and the log holds the "Missing or null values" error whose
message joins the computed list of offending columns — a list that contains
every offending required column. -/
theorem C6_missing_or_null_rejected (data : List Row) (hne : data ≠ [])
    (hoff : ∃ c ∈ required_columns, offendingCol (pdDataFrame data) c = true) :
    (transform_data data).1 = emptyDataFrame ∧
    (transform_data data).2 =
      [LogEvent.error (missingMsg (missingCols (pdDataFrame data))),
       LogEvent.error ("Data error: " ++ missingMsg (missingCols (pdDataFrame data)))] ∧
    ∀ c ∈ required_columns, offendingCol (pdDataFrame data) c = true →
      c ∈ missingCols (pdDataFrame data) := by
  obtain ⟨c0, hc0, hoffc⟩ := hoff
  have hmem : c0 ∈ missingCols (pdDataFrame data) :=
    List.mem_filter.mpr ⟨hc0, hoffc⟩
  have hM : (missingCols (pdDataFrame data)).isEmpty = false := by
    cases h : missingCols (pdDataFrame data) with
    | nil => rw [h] at hmem; exact absurd hmem (List.not_mem_nil c0)
    | cons a l => rfl
  have hE : data.isEmpty = false := by
    cases data with
    | nil => exact absurd rfl hne
    | cons a l => rfl
  refine ⟨?_, ?_, ?_⟩
  · simp only [transform_data, hE, hM]
    rfl
  · simp only [transform_data, hE, hM]
    rfl
  · intro c hc hco
    exact List.mem_filter.mpr ⟨hc, hco⟩

/-- C6 witness: a one-row batch holding only an `id` field. -/
theorem C6_missing_or_null_rejected_witness :
    (transform_data [[("id", PyValue.str "x")]]).1 = emptyDataFrame ∧
    "symbol" ∈ missingCols (pdDataFrame [[("id", PyValue.str "x")]]) := by
  have h := C6_missing_or_null_rejected [[("id", PyValue.str "x")]]
    (by decide) ⟨"symbol", by decide, by decide⟩
  exact ⟨h.1, h.2.2 "symbol" (by decide) (by decide)⟩

/-- C7: `load_data` on an empty table opens no connection, leaves the store
exactly as it was, and logs the "no data to load" error. -/
theorem C7_load_empty_no_mutation (toSqlFails : Bool) (s : Store) (df : DataFrame)
    (h : df.empty = true) :
    (load_data toSqlFails s df).store = s ∧
    (load_data toSqlFails s df).conns = [] ∧
    (load_data toSqlFails s df).log =
      [LogEvent.error
        "Error found in the data to be loaded: No data to load in the database."] := by
  simp only [load_data, h]
  exact ⟨rfl, rfl, rfl⟩

/-- C7 witness: loading the empty DataFrame into an empty store. -/
theorem C7_load_empty_no_mutation_witness :
    (load_data false { cryptos := Option.none } emptyDataFrame).store
      = { cryptos := Option.none } ∧
    (load_data false { cryptos := Option.none } emptyDataFrame).conns = [] ∧
    (load_data false { cryptos := Option.none } emptyDataFrame).log =
      [LogEvent.error
        "Error found in the data to be loaded: No data to load in the database."] :=
  C7_load_empty_no_mutation false { cryptos := Option.none } emptyDataFrame rfl

/-- C8: after two successive successful loads of non-empty tables A then B,
the persisted `cryptos` table is exactly B (`to_sql` with
`if_exists=replace` overwrites the whole table), so no row that is only in
A remains. -/
theorem C8_load_fully_replaces (s : Store) (A B : DataFrame)
    (hA : A.empty = false) (hB : B.empty = false) :
    (load_data false (load_data false s A).store B).store.cryptos = Option.some B := by
  simp only [load_data, hA, hB]
  rfl

/-- C8 witness: loading the good table, then the bad one. -/
theorem C8_load_fully_replaces_witness :
    (load_data false (load_data false { cryptos := Option.none } goodTable).store
      badTable).store.cryptos = Option.some badTable :=
  C8_load_fully_replaces { cryptos := Option.none } goodTable badTable
    (by decide) (by decide)

/-- Number of openConn events in a connection trace. -/
def opensIn (l : List ConnEvent) : Nat := l.count ConnEvent.openConn

/-- Number of closeConn events in a connection trace. -/
def closesIn (l : List ConnEvent) : Nat := l.count ConnEvent.closeConn

/-- C9 counterexample: when the storage write of `load_data` raises
`sqlite3.Error` (and likewise when the read of `verify_data` raises), the
connection opened in the try block is never closed — the except clause logs
and returns, skipping `conn.close()` — refuting the claim that every
connection is closed on every exit path. -/
theorem C9_failure_path_leaks_connection :
    (load_data true { cryptos := Option.none } goodTable).conns = [ConnEvent.openConn] ∧
    closesIn (load_data true { cryptos := Option.none } goodTable).conns ≠
      opensIn (load_data true { cryptos := Option.none } goodTable).conns ∧
    (verify_data true { cryptos := Option.some goodTable }).conns = [ConnEvent.openConn] ∧
    closesIn (verify_data true { cryptos := Option.some goodTable }).conns ≠
      opensIn (verify_data true { cryptos := Option.some goodTable }).conns := by
  decide

/-- C9 amended: every connection opened by `load_data` or `verify_data` is
closed on the exit paths where the storage operation succeeds; when the
write or the read raises, the opened connection is not closed. This theorem
proves the amended positive part: with the storage oracle reporting success
(and, for verify, the table present), the connection trace is balanced. -/
theorem C9_success_paths_close_connections (s : Store) (df tbl : DataFrame)
    (h : s.cryptos = Option.some tbl) :
    closesIn (load_data false s df).conns = opensIn (load_data false s df).conns ∧
    closesIn (verify_data false s).conns = opensIn (verify_data false s).conns := by
  constructor
  · cases hdf : df.empty with
    | true => simp only [load_data, hdf]; rfl
    | false => simp only [load_data, hdf]; rfl
  · simp only [verify_data, h]
    rfl

/-- C9 witness: a store holding the good table, loading the bad table. -/
theorem C9_success_paths_close_connections_witness :
    closesIn (load_data false { cryptos := Option.some goodTable } badTable).conns =
      opensIn (load_data false { cryptos := Option.some goodTable } badTable).conns ∧
    closesIn (verify_data false { cryptos := Option.some goodTable }).conns =
      opensIn (verify_data false { cryptos := Option.some goodTable }).conns :=
  C9_success_paths_close_connections { cryptos := Option.some goodTable }
    badTable goodTable rfl

/-- C10: stage gating of the orchestrator body. If the extraction result is
empty, none of transform, load, verify runs and the extraction error is
logged; if the extraction result is non-empty but `transform_data` returns
the empty DataFrame, transform ran but neither load nor verify runs and the
"No data to upload." warning is logged. -/
theorem C10_stage_gating (toSqlFails readFails : Bool) (s : Store) (data : List Row) :
    (data = [] →
      (etl_processFrom toSqlFails readFails s data).trace
        = { ranTransform := false, ranLoad := false, ranVerify := false } ∧
      (etl_processFrom toSqlFails readFails s data).store = s ∧
      LogEvent.error "It was not possible to extract data."
        ∈ (etl_processFrom toSqlFails readFails s data).log) ∧
    (data ≠ [] → (transform_data data).1.empty = true →
      (etl_processFrom toSqlFails readFails s data).trace
        = { ranTransform := true, ranLoad := false, ranVerify := false } ∧
      (etl_processFrom toSqlFails readFails s data).store = s ∧
      LogEvent.warning "No data to upload."
        ∈ (etl_processFrom toSqlFails readFails s data).log) := by
  constructor
  · intro h
    subst h
    refine ⟨rfl, rfl, ?_⟩
    simp [etl_processFrom]
  · intro hne hT
    have hE : data.isEmpty = false := by
      cases data with
      | nil => exact absurd rfl hne
      | cons a l => rfl
    refine ⟨?_, ?_, ?_⟩ <;>
      simp [etl_processFrom, hE, hT]

/-- C10 witness: the empty extraction result, and a batch whose transform
result is empty because every required column is missing. -/
theorem C10_stage_gating_witness :
    (etl_processFrom false false { cryptos := Option.none } []).trace
      = { ranTransform := false, ranLoad := false, ranVerify := false } ∧
    (etl_processFrom false false { cryptos := Option.none } [[("id", PyValue.str "x")]]).trace
      = { ranTransform := true, ranLoad := false, ranVerify := false } := by
  have h1 := C10_stage_gating false false { cryptos := Option.none } []
  have h2 := C10_stage_gating false false { cryptos := Option.none }
    [[("id", PyValue.str "x")]]
  exact ⟨(h1.1 rfl).1, (h2.2 (by decide) (by decide)).1⟩

end Etl
